import Mathlib

/-!
Shallow embedding of `telemetry.py` (module WTwebdev): a War Thunder
telemetry polling client.  Python dictionaries coming from the JSON
endpoints are modelled as association lists of `String × Value`; the
external collaborators (HTTP transport, map-info object) are modelled as
per-call inputs of type `Except PyExn _`; Python exceptions are an
explicit `PyExn` type threaded through the control flow exactly as the
`try`/`except` blocks of the source dictate.
-/

/-- JSON-style dynamic value, as stored in the Python dictionaries. -/
inductive Value where
  | num (q : ℚ)
  | str (s : String)
  | bool (b : Bool)
  | null
deriving DecidableEq

/-- Python truthiness of a value (used by `if self.indicators['valid']`). -/
def truthy : Value → Bool
  | .num q => decide (q ≠ 0)
  | .str s => decide (s ≠ "")
  | .bool b => b
  | .null => false

/-- Numeric coercion as Python's arithmetic sees it: numbers are numbers,
booleans count as 0/1, everything else raises `TypeError`. -/
def asNum : Value → Option ℚ
  | .num q => some q
  | .bool b => some (if b then 1 else 0)
  | _ => none

/-- A Python dict is modelled as an association list (insertion order kept). -/
abbrev Dict := List (String × Value)

/-- Dict lookup `d[k]`: first binding of the key. -/
def dictGet (d : Dict) (k : String) : Option Value :=
  match d with
  | [] => none
  | (k', v) :: rest => if k' = k then some v else dictGet rest k

/-- Replace every later binding of `k` (auxiliary for `dictSet`). -/
def setAll (rest : Dict) (k : String) (v : Value) : Dict :=
  rest.map (fun p => if p.1 = k then (k, v) else p)

/-- Dict assignment `d[k] = v`: update the binding in place if the key is
present, otherwise append it at the end (Python dict semantics). -/
def dictSet (d : Dict) (k : String) (v : Value) : Dict :=
  match d with
  | [] => [(k, v)]
  | (k', v') :: rest =>
    if k' = k then (k, v) :: setAll rest k v
    else (k', v') :: dictSet rest k v

/-- Embeds `combine_dicts` (telemetry.py line 32): merge all contents of
`from_d` into `to_d`, `from_d` winning on collisions.  The dynamic
`type(...) == dict` guard of the source is always true in this typed
model, so it is not represented. -/
def combine_dicts (to_d from_d : Dict) : Dict :=
  List.foldl (fun acc p => dictSet acc p.1 p.2) to_d from_d

/-- Last binding of a key in an association list (used to describe the
result of `combine_dicts` on inputs with duplicate keys). -/
def lastOcc (e : Dict) (k : String) : Option Value :=
  match e with
  | [] => none
  | (k', v) :: rest =>
    match lastOcc rest k with
    | some w => some w
    | none => if k' = k then some v else none

/-- Spec-side definition (for the refinement comparison in the altitude
claim): the first present altitude field in the preference order
`altitude_10k`, `altitude_hour`, `altitude_min`, defaulting to 0. -/
def specFirstAlt (ind : Dict) : Value :=
  match dictGet ind "altitude_10k" with
  | some v => v
  | none =>
    match dictGet ind "altitude_hour" with
    | some v => v
    | none =>
      match dictGet ind "altitude_min" with
      | some v => v
      | none => .num 0

/-- Python exceptions relevant to telemetry.py, each carrying its `str(e)`
message (for `keyError` the message is the rendering of the missing key). -/
inductive PyExn where
  | connectTimeout (msg : String)
  | connectionError (msg : String)
  | keyError (msg : String)
  | typeError (msg : String)
  | other (msg : String)
deriving DecidableEq

/-- The `str(e)` of an exception, as used by the substring test in the
outer `except` handlers. -/
def PyExn.message : PyExn → String
  | .connectTimeout m => m
  | .connectionError m => m
  | .keyError m => m
  | .typeError m => m
  | .other m => m

/-- Substring test `pat in s` of Python. -/
def containsSubstr (pat s : String) : Bool :=
  s.data.tails.any (fun t => pat.data.isPrefixOf t)

/-- The magic substring matched by the outer handlers of telemetry.py
(lines 238 and 287). -/
def REFUSAL_SUBSTR : String := "Failed to establish a new connection"

/-- Embeds `'Failed to establish a new connection' in str(e)`. -/
def refusalMsg (e : PyExn) : Bool :=
  containsSubstr REFUSAL_SUBSTR e.message

/-- Embeds `FT_TO_M = 0.3048` (telemetry.py line 18), written as the
fraction 3048/10000. -/
def FT_TO_M : ℚ := mkRat 3048 10000

/-- Embeds `METRICS_PLANES` (telemetry.py lines 19-22): the two-character
airframe-type prefixes whose altitude instruments report feet. -/
def METRICS_PLANES : List String :=
  ["p-", "f-", "f2", "f3", "f4", "f6", "f7", "f8", "f9", "os",
   "sb", "tb", "a-", "pb", "am", "ad", "fj", "b-", "b_", "xp",
   "bt", "xa", "xf", "sp", "hu", "ty", "fi", "gl", "ni", "fu",
   "fu", "se", "bl", "be", "su", "te", "st", "mo", "we", "ha"]

/-- Status code `Status.IN_FLIGHT` (telemetry.py line 25). -/
def Status.IN_FLIGHT : Int := 0

/-- Status code `Status.IN_MENU` (telemetry.py line 26). -/
def Status.IN_MENU : Int := -1

/-- Status code `Status.NO_MISSION` (telemetry.py line 27). -/
def Status.NO_MISSION : Int := -2

/-- Status code `Status.WT_NOT_RUNNING` (telemetry.py line 28). -/
def Status.WT_NOT_RUNNING : Int := -3

/-- Status code `Status.OTHER_ERROR` (telemetry.py line 29). -/
def Status.OTHER_ERROR : Int := -4

/-- A comment or damage-event record; only its `id` field is ever read by
telemetry.py, so the remaining payload is not represented. -/
structure LogEntry where
  id : Int
deriving DecidableEq

/-- Embeds `max([comment['id'] for comment in self.comments])` on the
nonempty list `x :: xs`. -/
def maxIds (x : LogEntry) (xs : List LogEntry) : Int :=
  List.foldl (fun a c => max a c.id) x.id xs

/-- Embeds `self.events[-1]['id']` on the nonempty list `x :: xs`. -/
def lastId (x : LogEntry) (xs : List LogEntry) : Int :=
  match xs with
  | [] => x.id
  | y :: ys => lastId y ys

/-- The `self.events` attribute is a list, except that
`get_telemetry(..., events=False)` reassigns it to the empty dict `{}`
(telemetry.py line 183). -/
inductive EventsAcc where
  | lst (l : List LogEntry)
  | emptyDict
deriving DecidableEq

/-- Pure core of `get_comments` (telemetry.py lines 79-83) acting on the
`(comments, last_comment_ID)` fields: fetch (no local error handling at
all, a transport or parse failure escapes), extend the accumulated list,
and if it is nonempty set the watermark to the max id over the whole
accumulated list. -/
def commentsStep (cs : List LogEntry) (wm : Int)
    (r : Except PyExn (List LogEntry)) :
    List LogEntry × Int × Option PyExn :=
  match r with
  | .error e => (cs, wm, some e)
  | .ok batch =>
    match cs ++ batch with
    | [] => (cs ++ batch, wm, none)
    | x :: xs => (cs ++ batch, maxIds x xs, none)

/-- Watermark-update phase of `get_events` (telemetry.py lines 100-102):
`self.last_event_ID = self.events[-1]['id']` with only `IndexError`
caught, so on the `{}` accumulator it raises an uncaught `KeyError`. -/
def eventsWatermark (ev1 : EventsAcc) (wm : Int) :
    EventsAcc × Int × Option PyExn :=
  match ev1 with
  | .lst [] => (ev1, wm, none)
  | .lst (x :: xs) => (ev1, lastId x xs, none)
  | .emptyDict => (ev1, wm, some (.keyError "-1"))

/-- Fetch-and-extend phase of `get_events` followed by the watermark
update: the first `try` swallows every exception (leaving the accumulator
unchanged when the fetch fails or when `extend` is unavailable on the
`{}` dict), then `eventsWatermark` runs. -/
def eventsStep (ev : EventsAcc) (wm : Int)
    (r : Except PyExn (List LogEntry)) :
    EventsAcc × Int × Option PyExn :=
  match ev, r with
  | .lst l, .ok batch => eventsWatermark (.lst (l ++ batch)) wm
  | e, _ => eventsWatermark e wm

/-- The mutable fields of a `TelemInterface` object (telemetry.py lines
57-68).  The `map_info` collaborator object is external and is modelled
by per-call inputs instead of state. -/
structure TelemState where
  connected : Bool
  full_telemetry : Dict
  basic_telemetry : Dict
  indicators : Dict
  state : Dict
  last_event_ID : Int
  last_comment_ID : Int
  comments : List LogEntry
  events : EventsAcc
  status : Int
deriving DecidableEq

/-- Embeds `TelemInterface.__init__`. -/
def TelemInterface.init : TelemState :=
  { connected := false
    full_telemetry := []
    basic_telemetry := []
    indicators := []
    state := []
    last_event_ID := -1
    last_comment_ID := -1
    comments := []
    events := .lst []
    status := Status.WT_NOT_RUNNING }

/-- Embeds `TelemInterface.get_comments`; `r` is the outcome of the
transport fetch-and-parse.  Returns the post-call state together with the
exception escaping the call, if any. -/
def get_comments (s : TelemState) (r : Except PyExn (List LogEntry)) :
    TelemState × Option PyExn :=
  ({ s with
      comments := (commentsStep s.comments s.last_comment_ID r).1
      last_comment_ID := (commentsStep s.comments s.last_comment_ID r).2.1 },
   (commentsStep s.comments s.last_comment_ID r).2.2)

/-- Embeds `TelemInterface.get_events`; `r` is the outcome of fetching and
parsing the `damage` list of the response. -/
def get_events (s : TelemState) (r : Except PyExn (List LogEntry)) :
    TelemState × Option PyExn :=
  ({ s with
      events := (eventsStep s.events s.last_event_ID r).1
      last_event_ID := (eventsStep s.events s.last_event_ID r).2.1 },
   (eventsStep s.events s.last_event_ID r).2.2)

/-- Negation step of the sign-convention fix: negate a numeric (or
boolean) value, raise `TypeError` otherwise. -/
def fixNum (d : Dict) (k : String) (o : Option ℚ) : Except PyExn Dict :=
  match o with
  | some q => .ok (dictSet d k (.num (-q)))
  | none => .error (.typeError "bad operand type for unary -")

/-- Dispatch of the sign-convention fix on presence of the field. -/
def fixVal (d : Dict) (k : String) (o : Option Value) : Except PyExn Dict :=
  match o with
  | none => .ok (dictSet d k (.num 0))
  | some v => fixNum d k (asNum v)

/-- Embeds the sign-convention fix blocks (telemetry.py lines 188-196):
negate the field if present (`TypeError` on non-numeric values escapes),
else default it to 0. -/
def fixAngle (d : Dict) (k : String) : Except PyExn Dict :=
  fixVal d k (dictGet d k)

/-- Feet-to-meters conversion `value * FT_TO_M`; multiplying a
non-numeric value raises `TypeError`. -/
def convFt (v : Value) : Except PyExn Value :=
  match asNum v with
  | some q => .ok (.num (q * FT_TO_M))
  | none => .error (.typeError "unsupported operand type for *")

/-- Altitude-field preference chain of `find_altitude`: the imperial
branch (telemetry.py lines 117-125) converts each candidate with
`convFt`, the metric branch (lines 126-134) returns the raw value;
both default to 0. -/
def altChain (ind : Dict) (imp : Bool) : Except PyExn Value :=
  match imp with
  | true =>
    match dictGet ind "altitude_10k" with
    | some v => convFt v
    | none =>
      match dictGet ind "altitude_hour" with
      | some v => convFt v
      | none =>
        match dictGet ind "altitude_min" with
        | some v => convFt v
        | none => .ok (.num 0)
  | false =>
    match dictGet ind "altitude_10k" with
    | some v => .ok v
    | none =>
      match dictGet ind "altitude_hour" with
      | some v => .ok v
      | none =>
        match dictGet ind "altitude_min" with
        | some v => .ok v
        | none => .ok (.num 0)

/-- Dispatch of `find_altitude` on the `type` field: a missing `type`
raises `KeyError` (caught by the inner handler of `get_telemetry`); a
non-string `type` raises `TypeError` at the subscript `name[:2]`. -/
def findAltOfType (ind : Dict) (o : Option Value) : Except PyExn Value :=
  match o with
  | none => .error (.keyError "type")
  | some (.str name) => altChain ind (decide (name.take 2 ∈ METRICS_PLANES))
  | some _ => .error (.typeError "string indices: type is not a string")

/-- Embeds `TelemInterface.find_altitude` (telemetry.py lines 106-134):
dispatch on the first two characters of `indicators['type']` against
`METRICS_PLANES`, then return the first present altitude field (converted
to meters in the imperial branch, raw otherwise), defaulting to 0. -/
def find_altitude (ind : Dict) : Except PyExn Value :=
  findAltOfType ind (dictGet ind "type")

/-- Final stage of the normalization block (telemetry.py lines 198-230),
dispatching on the outcome of `find_altitude`: a `KeyError` is caught by
the inner `except (KeyError, AttributeError)` and classified `IN_MENU`;
any other exception escapes; on success the merges into `full_telemetry`
and the `basic_telemetry` extraction run and the poll is classified
`IN_FLIGHT`. -/
def flightFinish (s : TelemState) (lat lon : ℚ) (ind2 : Dict)
    (r : Except PyExn Value) : TelemState × Option PyExn :=
  match r with
  | .error (.keyError _) =>
    ({ s with indicators := ind2, status := Status.IN_MENU }, none)
  | .error e => ({ s with indicators := ind2 }, some e)
  | .ok altV =>
    let ind3 := dictSet ind2 "alt_m" altV
    let full2 := combine_dicts (combine_dicts s.full_telemetry ind3) s.state
    let b1 := dictSet s.basic_telemetry "airframe"
      ((dictGet ind3 "type").getD .null)
    let b2 := dictSet b1 "roll" ((dictGet ind3 "aviahorizon_roll").getD .null)
    let b3 := dictSet b2 "pitch" ((dictGet ind3 "aviahorizon_pitch").getD .null)
    let b4 := dictSet b3 "altitude" ((dictGet ind3 "alt_m").getD .null)
    let b5 := dictSet b4 "lat" (.num lat)
    let full3 := dictSet full2 "lat" (.num lat)
    let b6 := dictSet b5 "lon" (.num lon)
    let full4 := dictSet full3 "lon" (.num lon)
    let b7 := dictSet b6 "IAS" ((dictGet s.state "IAS, km/h").getD .null)
    let b8 := dictSet b7 "flapState" ((dictGet s.state "flaps, %").getD .null)
    let b9 := dictSet b8 "gearState" ((dictGet s.state "gear, %").getD .null)
    ({ s with
        indicators := ind3
        full_telemetry := full4
        basic_telemetry := b9
        connected := true
        status := Status.IN_FLIGHT }, none)

/-- Continuation after the pitch fix: dispatch on the roll fix (a
`TypeError` escapes with the pitch-fixed indicators stored), then run
`find_altitude` and `flightFinish`. -/
def rollCont (s : TelemState) (lat lon : ℚ) (ind1 : Dict)
    (r : Except PyExn Dict) : TelemState × Option PyExn :=
  match r with
  | .error e => ({ s with indicators := ind1 }, some e)
  | .ok ind2 => flightFinish s lat lon ind2 (find_altitude ind2)

/-- Embeds the inner normalization block of `get_telemetry` (telemetry.py
lines 186-233): sign fixes, altitude standardization, the two merges into
`full_telemetry`, and the `basic_telemetry` field extraction. -/
def normalizeFlight (s : TelemState) (lat lon : ℚ) : TelemState × Option PyExn :=
  match fixAngle s.indicators "aviahorizon_pitch" with
  | .error e => (s, some e)
  | .ok ind1 => rollCont s lat lon ind1 (fixAngle ind1 "aviahorizon_roll")

/-- Second half of the short-circuit `valid` check: dispatch on the
truthiness of `state['valid']`. -/
def validStB (s : TelemState) (lat lon : ℚ) (b : Bool) :
    TelemState × Option PyExn :=
  match b with
  | true => normalizeFlight s lat lon
  | false => ({ s with status := Status.NO_MISSION }, none)

/-- Lookup of `state['valid']`: a missing key raises `KeyError` to the
outer handler. -/
def validSt (s : TelemState) (lat lon : ℚ) (o : Option Value) :
    TelemState × Option PyExn :=
  match o with
  | none => (s, some (.keyError "valid"))
  | some vs => validStB s lat lon (truthy vs)

/-- First half of the short-circuit `valid` check: dispatch on the
truthiness of `indicators['valid']`; when falsy, `state['valid']` is
never evaluated. -/
def validIndB (s : TelemState) (lat lon : ℚ) (b : Bool) :
    TelemState × Option PyExn :=
  match b with
  | true => validSt s lat lon (dictGet s.state "valid")
  | false => ({ s with status := Status.NO_MISSION }, none)

/-- Lookup of `indicators['valid']`: a missing key raises `KeyError` to
the outer handler. -/
def validInd (s : TelemState) (lat lon : ℚ) (o : Option Value) :
    TelemState × Option PyExn :=
  match o with
  | none => (s, some (.keyError "valid"))
  | some vi => validIndB s lat lon (truthy vi)

/-- Embeds the `valid`-flag check (telemetry.py line 185) with Python's
short-circuit `and`, followed by the normalization block. -/
def validCheck (s : TelemState) (lat lon : ℚ) : TelemState × Option PyExn :=
  validInd s lat lon (dictGet s.indicators "valid")

/-- Continuation after the events block of `get_telemetry`: if the block
raised, the exception propagates to the outer handler, otherwise the
`valid`-flag classification of line 185 runs. -/
def eventsCont (p : TelemState × Option PyExn) (lat lon : ℚ) :
    TelemState × Option PyExn :=
  match p.2 with
  | some e => (p.1, some e)
  | none => validCheck p.1 lat lon

/-- Continuation after the comments block of `get_telemetry`: if the
block raised, the exception propagates; otherwise the events block of
lines 180-183 runs (either `get_events` or the `self.events = {}`
reset), followed by `eventsCont`. -/
def commentsCont (p : TelemState × Option PyExn) (lat lon : ℚ)
    (eventsFlag : Bool) (eventsRes : Except PyExn (List LogEntry)) :
    TelemState × Option PyExn :=
  match p.2 with
  | some e => (p.1, some e)
  | none =>
    eventsCont
      (if eventsFlag then get_events p.1 eventsRes
       else ({ p.1 with events := .emptyDict }, none)) lat lon

/-- The body of the outer `try` of `get_telemetry` (telemetry.py lines
165-235): map collaborator, the two snapshot fetches, the optional
comment/event side fetches (with the resets of lines 178 and 183), then
classification. -/
def pollBody (s : TelemState) (mapRes : Except PyExn (ℚ × ℚ))
    (indRes stRes : Except PyExn Dict)
    (commentsFlag : Bool) (commentsRes : Except PyExn (List LogEntry))
    (eventsFlag : Bool) (eventsRes : Except PyExn (List LogEntry)) :
    TelemState × Option PyExn :=
  match mapRes with
  | .error e => (s, some e)
  | .ok (lat, lon) =>
    match indRes with
    | .error e => (s, some e)
    | .ok ind =>
      match stRes with
      | .error e => ({ s with indicators := ind }, some e)
      | .ok st =>
        commentsCont
          (if commentsFlag then
             get_comments { s with indicators := ind, state := st } commentsRes
           else ({ s with indicators := ind, state := st, comments := [] }, none))
          lat lon eventsFlag eventsRes

/-- The outer exception handler of `get_telemetry` (telemetry.py lines
237-243): a recovered exception sets the status to `WT_NOT_RUNNING` when
its message contains the connection-refusal substring and to
`OTHER_ERROR` otherwise; nothing ever re-raises. -/
def telemWrap (p : TelemState × Option PyExn) : TelemState :=
  match p.2 with
  | none => p.1
  | some e =>
    { p.1 with status := if refusalMsg e then Status.WT_NOT_RUNNING else Status.OTHER_ERROR }

/-- Embeds `TelemInterface.get_telemetry` (telemetry.py lines 136-245).
The external outcomes are inputs: `mapRes` is the joint outcome of
`map_info.download_files()` / `parse_meta()` together with the player
coordinates, `indRes`/`stRes` the fetched-and-parsed snapshots, and
`commentsRes`/`eventsRes` the side-fetch outcomes. -/
def get_telemetry (s : TelemState) (mapRes : Except PyExn (ℚ × ℚ))
    (indRes stRes : Except PyExn Dict)
    (commentsFlag : Bool) (commentsRes : Except PyExn (List LogEntry))
    (eventsFlag : Bool) (eventsRes : Except PyExn (List LogEntry)) :
    TelemState :=
  telemWrap
    (pollBody { s with connected := false, full_telemetry := [], basic_telemetry := [] }
      mapRes indRes stRes commentsFlag commentsRes eventsFlag eventsRes)

/-- The `valid`-flag check and airframe extraction of `get_status`
(telemetry.py lines 270-281), with Python's short-circuit `and` and the
inner `except (KeyError, AttributeError)` mapping a missing `type` to
`IN_MENU`. -/
def statusValid (s1 : TelemState) : TelemState × Except PyExn Int :=
  match dictGet s1.indicators "valid" with
  | none => (s1, .error (.keyError "valid"))
  | some vi =>
    if truthy vi then
      match dictGet s1.state "valid" with
      | none => (s1, .error (.keyError "valid"))
      | some vs =>
        if truthy vs then
          match dictGet s1.indicators "type" with
          | none => (s1, .ok Status.IN_MENU)
          | some tv =>
            ({ s1 with
                basic_telemetry := dictSet s1.basic_telemetry "airframe" tv
                connected := true }, .ok Status.IN_FLIGHT)
        else (s1, .ok Status.NO_MISSION)
    else (s1, .ok Status.NO_MISSION)

/-- Continuation after the `get_events` call inside `get_status`
(telemetry.py line 268): an escaping exception propagates to the outer
handlers, otherwise the classification runs. -/
def statusAfterEvents (p : TelemState × Option PyExn) :
    TelemState × Except PyExn Int :=
  match p.2 with
  | some e => (p.1, .error e)
  | none => statusValid p.1

/-- The body of the outer `try` of `get_status` (telemetry.py lines
257-281), returning the state together with either the returned status
code or the escaping exception. -/
def statusBody (s : TelemState) (battleRes : Except PyExn Bool)
    (indRes stRes : Except PyExn Dict)
    (eventsRes : Except PyExn (List LogEntry)) :
    TelemState × Except PyExn Int :=
  match battleRes with
  | .error e => (s, .error e)
  | .ok false => (s, .ok Status.IN_MENU)
  | .ok true =>
    match indRes with
    | .error e => (s, .error e)
    | .ok ind =>
      match stRes with
      | .error e => ({ s with indicators := ind }, .error e)
      | .ok st =>
        statusAfterEvents (get_events { s with indicators := ind, state := st } eventsRes)

/-- The exception handlers of `get_status` (telemetry.py lines 283-292):
`ConnectTimeout` maps to `WT_NOT_RUNNING` directly, everything else goes
through the same message-substring test as `get_telemetry`. -/
def statusWrap (p : TelemState × Except PyExn Int) : TelemState × Int :=
  match p.2 with
  | .ok code => (p.1, code)
  | .error (.connectTimeout _) => (p.1, Status.WT_NOT_RUNNING)
  | .error e =>
    (p.1, if refusalMsg e then Status.WT_NOT_RUNNING else Status.OTHER_ERROR)

/-- Embeds `TelemInterface.get_status` (telemetry.py lines 247-292):
like `get_telemetry` but short-circuiting on the battle check, and with a
dedicated `except ConnectTimeout` clause (line 283) before the generic
handler.  It returns the status code instead of storing it. -/
def get_status (s : TelemState) (battleRes : Except PyExn Bool)
    (indRes stRes : Except PyExn Dict)
    (eventsRes : Except PyExn (List LogEntry)) :
    TelemState × Int :=
  statusWrap
    (statusBody { s with connected := false, full_telemetry := [], basic_telemetry := [] }
      battleRes indRes stRes eventsRes)

/-- Concrete indicators snapshot of end-to-end scenario 1 of the spec. -/
def ind1 : Dict :=
  [("valid", .bool true), ("type", .str "fw190"),
   ("aviahorizon_pitch", .num 2), ("aviahorizon_roll", .num (-3)),
   ("altitude_10k", .num 1000)]

/-- Concrete state snapshot of end-to-end scenario 1 of the spec. -/
def st1 : Dict := [("valid", .bool true), ("IAS, km/h", .num 350)]

/-- The poll of end-to-end scenario 1, started from a fresh interface with
a successful map collaborator and both side fetches disabled. -/
def run1 : TelemState :=
  get_telemetry TelemInterface.init (.ok (0, 0)) (.ok ind1) (.ok st1)
    false (.ok []) false (.ok [])

/-- A representative `str(e)` of a requests `ConnectTimeout`: it does not
contain the connection-refusal substring matched at telemetry.py line 238. -/
def ctMsg : String :=
  "Max retries exceeded with url: /indicators (Caused by ConnectTimeoutError: Connection to 127.0.0.1 timed out.)"

/-- State invariant tying the comment watermark to the accumulated
comment list: whenever the list is nonempty the watermark is at most its
maximal id (after each `get_comments` it is exactly that maximum). -/
def cmInv (cs : List LogEntry) (wm : Int) : Prop :=
  ∀ x xs, cs = x :: xs → wm ≤ maxIds x xs

/-- State invariant tying the event watermark to the accumulated event
list: whenever the accumulator is a nonempty list the watermark equals
the id of its last element. -/
def evInv (ev : EventsAcc) (wm : Int) : Prop :=
  ∀ x xs, ev = .lst (x :: xs) → wm = lastId x xs

/-- Combined log invariant of a telemetry interface state. -/
def LogInv (s : TelemState) : Prop :=
  cmInv s.comments s.last_comment_ID ∧ evInv s.events s.last_event_ID

/-- One observable operation of a `TelemInterface` object, relating the
state before to the state after, for arbitrary collaborator outcomes. -/
inductive TelemStep : TelemState → TelemState → Prop where
  | comments : ∀ s r, TelemStep s (get_comments s r).1
  | events : ∀ s r, TelemStep s (get_events s r).1
  | telem : ∀ s m i st cf cr ef er,
      TelemStep s (get_telemetry s m i st cf cr ef er)
  | status : ∀ s b i st er, TelemStep s (get_status s b i st er).1

/-- States a `TelemInterface` object can actually be in: reachable from
`__init__` by any sequence of method calls with any server responses. -/
def Reachable (s : TelemState) : Prop :=
  Relation.ReflTransGen TelemStep TelemInterface.init s

/-- A snapshot pair that normalizes successfully: valid, with an airframe
type outside the imperial allow-list and no optional fields. -/
def indOk : Dict := [("valid", .bool true), ("type", .str "ab")]

/-- A minimal valid state snapshot. -/
def stOk : Dict := [("valid", .bool true)]

/-- A poll with comments requested whose comment fetch fails. -/
def run4fail : TelemState :=
  get_telemetry TelemInterface.init (.ok (0, 0)) (.ok indOk) (.ok stOk)
    true (.error (.other "Expecting value: line 1 column 1 (char 0)")) false (.ok [])

/-- The same poll with the comment fetch succeeding (empty batch). -/
def run4ok : TelemState :=
  get_telemetry TelemInterface.init (.ok (0, 0)) (.ok indOk) (.ok stOk)
    true (.ok []) false (.ok [])

/-- A completed poll with `events=False`: it reassigns the events
accumulator to the `{}` dict (telemetry.py line 183). -/
def preDict : TelemState :=
  get_telemetry TelemInterface.init (.ok (0, 0)) (.ok [("valid", .bool false)])
    (.ok []) false (.ok []) false (.ok [])

/-- A follow-up poll with `events=True` from the `{}`-accumulator state,
with valid snapshots but no `type` key. -/
def run6 : TelemState :=
  get_telemetry preDict (.ok (0, 0)) (.ok stOk) (.ok stOk)
    false (.ok []) true (.ok [])

/-- A follow-up poll with `events=True` from the `{}`-accumulator state,
with an invalid indicators snapshot. -/
def run7 : TelemState :=
  get_telemetry preDict (.ok (0, 0)) (.ok [("valid", .bool false)]) (.ok [])
    false (.ok []) true (.ok [])

/-- Indicators snapshot carrying its own `lat` key. -/
def ind8 : Dict := [("valid", .bool true), ("type", .str "ab"), ("lat", .num 1)]

/-- State snapshot carrying its own `lat` key. -/
def st8 : Dict := [("valid", .bool true), ("lat", .num 2)]

/-- A successful poll whose map collaborator reports position (7, 8),
while both snapshots also carry a `lat` key. -/
def run8 : TelemState :=
  get_telemetry TelemInterface.init (.ok (7, 8)) (.ok ind8) (.ok st8)
    false (.ok []) false (.ok [])

/-- A representative `str(e)` of a connection-refused transport error:
it contains the substring matched at telemetry.py line 238. -/
def refusedMsg : String :=
  "Max retries exceeded with url: /indicators (Caused by NewConnectionError: Failed to establish a new connection: [Errno 111] Connection refused)"

/-- A poll with `events=False` whose indicators fetch fails with a
connection-refused error: the events reset at line 183 is never reached. -/
def runRefused : TelemState :=
  get_telemetry TelemInterface.init (.ok (0, 0))
    (.error (.connectionError refusedMsg)) (.ok [])
    false (.ok []) false (.ok [])

/-- Concrete witness snapshot for the altitude claim: an imperial-prefix
airframe reporting via the `altitude_hour` instrument. -/
def indW : Dict := [("type", .str "p-51"), ("altitude_hour", .num 200)]

/-- Looking up a key just assigned returns the assigned value. -/
theorem dictGet_setAll_ne (rest : Dict) (k k' : String) (v : Value)
    (h : k' ≠ k) : dictGet (setAll rest k v) k' = dictGet rest k' := by
  induction rest with
  | nil => rfl
  | cons p rest ih =>
    obtain ⟨a, b⟩ := p
    show dictGet ((if a = k then (k, v) else (a, b)) :: setAll rest k v) k' =
      dictGet ((a, b) :: rest) k'
    by_cases hak : a = k
    · rw [if_pos hak]
      have hak' : a ≠ k' := by rw [hak]; exact Ne.symm h
      simp [dictGet, Ne.symm h, hak', ih]
    · rw [if_neg hak]
      simp [dictGet, ih]

/-- Looking up a key just assigned returns the assigned value. -/
theorem dictGet_dictSet_self (d : Dict) (k : String) (v : Value) :
    dictGet (dictSet d k v) k = some v := by
  induction d with
  | nil => simp [dictSet, dictGet]
  | cons p rest ih =>
    obtain ⟨a, b⟩ := p
    by_cases hak : a = k
    · subst hak; simp [dictSet, dictGet]
    · simp [dictSet, dictGet, hak, ih]

/-- Assigning one key leaves lookups of other keys unchanged. -/
theorem dictGet_dictSet_ne (d : Dict) (k k' : String) (v : Value)
    (h : k' ≠ k) : dictGet (dictSet d k v) k' = dictGet d k' := by
  induction d with
  | nil => simp [dictSet, dictGet, Ne.symm h]
  | cons p rest ih =>
    obtain ⟨a, b⟩ := p
    by_cases hak : a = k
    · subst hak
      simp [dictSet, dictGet, Ne.symm h, dictGet_setAll_ne rest a k' v h]
    · by_cases hak' : a = k'
      · subst hak'; simp [dictSet, dictGet, hak]
      · simp [dictSet, dictGet, hak, hak', ih]

/-- A successful lookup means the key occurs in the dict. -/
theorem dictGet_mem_of_some (e : Dict) (k : String) (w : Value)
    (h : dictGet e k = some w) : k ∈ e.map Prod.fst := by
  induction e with
  | nil => simp [dictGet] at h
  | cons p rest ih =>
    obtain ⟨a, b⟩ := p
    by_cases hak : a = k
    · subst hak; simp
    · simp only [dictGet, if_neg hak] at h
      simp [ih h]

/-- Lookup in the result of `combine_dicts` prefers the last binding of
the merged-in dict and falls back to the base dict. -/
theorem dictGet_combine (e : Dict) : ∀ (d : Dict) (k : String),
    dictGet (combine_dicts d e) k =
      match lastOcc e k with
      | some w => some w
      | none => dictGet d k := by
  induction e with
  | nil => intro d k; rfl
  | cons p e' ih =>
    intro d k
    obtain ⟨k0, v0⟩ := p
    have hc : combine_dicts d ((k0, v0) :: e') = combine_dicts (dictSet d k0 v0) e' := rfl
    rw [hc, ih]
    cases hLO : lastOcc e' k with
    | some w => simp [lastOcc, hLO]
    | none =>
      by_cases hk : k0 = k
      · subst hk; simp [lastOcc, hLO, dictGet_dictSet_self]
      · simp [lastOcc, hLO, hk, dictGet_dictSet_ne d k0 k v0 (Ne.symm hk)]

/-- On a dict with no duplicate keys the last binding is the only one. -/
theorem lastOcc_eq_dictGet (e : Dict) (k : String)
    (h : (e.map Prod.fst).Nodup) : lastOcc e k = dictGet e k := by
  induction e with
  | nil => rfl
  | cons p rest ih =>
    obtain ⟨a, b⟩ := p
    simp only [List.map_cons, List.nodup_cons] at h
    obtain ⟨hna, hnd⟩ := h
    have hor : lastOcc rest k = dictGet rest k := ih hnd
    cases hLO : dictGet rest k with
    | some w =>
      have hak : a ≠ k := by
        intro hak; subst hak
        exact hna (dictGet_mem_of_some rest a w hLO)
      simp [lastOcc, dictGet, hor, hLO, hak]
    | none =>
      by_cases hak : a = k
      · subst hak; simp [lastOcc, dictGet, hor, hLO]
      · simp [lastOcc, dictGet, hor, hLO, hak]

/-- Folding `max` over a list never goes below the start value. -/
theorem le_foldl_max (l : List LogEntry) :
    ∀ a : Int, a ≤ List.foldl (fun b c => max b c.id) a l := by
  induction l with
  | nil => intro a; exact le_refl a
  | cons c l ih =>
    intro a
    exact le_trans (le_max_left a c.id) (ih (max a c.id))

/-- Appending entries can only increase the running maximum id. -/
theorem maxIds_le_append (x : LogEntry) (xs ys : List LogEntry) :
    maxIds x xs ≤ maxIds x (xs ++ ys) := by
  unfold maxIds
  rw [List.foldl_append]
  exact le_foldl_max ys _

/-- The head's id is bounded by the maximum id. -/
theorem le_maxIds_head (x : LogEntry) (xs : List LogEntry) :
    x.id ≤ maxIds x xs :=
  le_foldl_max xs x.id

/-- The last element of an appended nonempty tail gives the last id. -/
theorem lastId_append (l : List LogEntry) :
    ∀ (x b : LogEntry) (bs : List LogEntry),
      lastId x (l ++ (b :: bs)) = lastId b bs := by
  induction l with
  | nil => intro x b bs; rfl
  | cons y l ih => intro x b bs; exact ih y b bs

/-- Identifying the last id through an equation between list shapes. -/
theorem lastId_of_append_eq (l : List LogEntry) (x b : LogEntry)
    (xs bs : List LogEntry) (h : x :: xs = l ++ (b :: bs)) :
    lastId x xs = lastId b bs := by
  cases l with
  | nil =>
    simp only [List.nil_append] at h
    injection h with h1 h2
    subst h1; subst h2; rfl
  | cons a l0 =>
    simp only [List.cons_append] at h
    injection h with h1 h2
    rw [h2]
    exact lastId_append l0 x b bs

/-- The last id is the id of some member of the list. -/
theorem lastId_mem (xs : List LogEntry) :
    ∀ x : LogEntry, ∃ c, c ∈ x :: xs ∧ c.id = lastId x xs := by
  induction xs with
  | nil => intro x; exact ⟨x, by simp, rfl⟩
  | cons y ys ih =>
    intro x
    obtain ⟨c, hc, hid⟩ := ih y
    exact ⟨c, List.mem_cons_of_mem x hc, hid⟩

/-- A comment fetch that parses successfully never raises. -/
theorem commentsStep_ok_none (cs : List LogEntry) (wm : Int)
    (b : List LogEntry) : (commentsStep cs wm (.ok b)).2.2 = none := by
  unfold commentsStep
  rcases hc : cs ++ b with _ | ⟨x, xs⟩ <;> simp [hc]

/-- `commentsStep` preserves the comment-log invariant. -/
theorem commentsStep_inv (cs : List LogEntry) (wm : Int)
    (r : Except PyExn (List LogEntry)) (h : cmInv cs wm) :
    cmInv (commentsStep cs wm r).1 (commentsStep cs wm r).2.1 := by
  cases r with
  | error e => exact h
  | ok b =>
    rcases hc : cs ++ b with _ | ⟨x, xs⟩ <;> simp only [commentsStep, hc]
    · intro x' xs' hx
      exact absurd hx (by simp)
    · intro x' xs' hx
      injection hx with h1 h2
      subst h1; subst h2
      exact le_refl _

/-- The watermark phase re-establishes the event-log invariant. -/
theorem eventsWatermark_inv (ev1 : EventsAcc) (wm : Int) :
    evInv (eventsWatermark ev1 wm).1 (eventsWatermark ev1 wm).2.1 := by
  rcases ev1 with l | _
  · rcases l with _ | ⟨x, xs⟩
    · intro x' xs' h
      simp [eventsWatermark] at h
    · intro x' xs' h
      simp only [eventsWatermark] at h ⊢
      injection h with h0
      injection h0 with h1 h2
      subst h1; subst h2
      rfl
  · intro x' xs' h
    simp [eventsWatermark] at h

/-- `eventsStep` establishes the event-log invariant unconditionally. -/
theorem eventsStep_inv (ev : EventsAcc) (wm : Int)
    (r : Except PyExn (List LogEntry)) :
    evInv (eventsStep ev wm r).1 (eventsStep ev wm r).2.1 := by
  rcases ev with l | _ <;> rcases r with e | b
  · exact eventsWatermark_inv (.lst l) wm
  · exact eventsWatermark_inv (.lst (l ++ b)) wm
  · exact eventsWatermark_inv .emptyDict wm
  · exact eventsWatermark_inv .emptyDict wm

/-- A comment fetch that parses successfully never raises. -/
theorem get_comments_snd_ok (s : TelemState) (b : List LogEntry) :
    (get_comments s (.ok b)).2 = none :=
  commentsStep_ok_none s.comments s.last_comment_ID b

/-- When the accumulator is a list, `get_events` never raises. -/
theorem get_events_snd_lst (s : TelemState) (r : Except PyExn (List LogEntry))
    (l : List LogEntry) (h : s.events = .lst l) : (get_events s r).2 = none := by
  unfold get_events eventsStep
  rw [h]
  rcases r with e | b
  · rcases l with _ | ⟨x, xs⟩ <;> rfl
  · rcases hc : l ++ b with _ | ⟨x, xs⟩ <;> simp [eventsWatermark, hc]

/-- The log invariant only depends on the four log fields. -/
theorem LogInv_of_eq (a b : TelemState)
    (h1 : b.comments = a.comments) (h2 : b.last_comment_ID = a.last_comment_ID)
    (h3 : b.events = a.events) (h4 : b.last_event_ID = a.last_event_ID)
    (h : LogInv a) : LogInv b := by
  unfold LogInv at h ⊢
  unfold cmInv evInv at h ⊢
  rw [h1, h2, h3, h4]
  exact h

/-- `get_comments` preserves the log invariant. -/
theorem get_comments_logInv (s : TelemState) (r : Except PyExn (List LogEntry))
    (h : LogInv s) : LogInv (get_comments s r).1 :=
  ⟨commentsStep_inv s.comments s.last_comment_ID r h.1, h.2⟩

/-- `get_events` preserves (indeed re-establishes) the log invariant. -/
theorem get_events_logInv (s : TelemState) (r : Except PyExn (List LogEntry))
    (h : LogInv s) : LogInv (get_events s r).1 :=
  ⟨h.1, eventsStep_inv s.events s.last_event_ID r⟩

/-- The last normalization stage never touches the log fields nor the
state snapshot. -/
theorem flightFinish_logs (s : TelemState) (lat lon : ℚ) (ind2 : Dict)
    (r : Except PyExn Value) :
    (flightFinish s lat lon ind2 r).1.comments = s.comments ∧
    (flightFinish s lat lon ind2 r).1.last_comment_ID = s.last_comment_ID ∧
    (flightFinish s lat lon ind2 r).1.events = s.events ∧
    (flightFinish s lat lon ind2 r).1.last_event_ID = s.last_event_ID ∧
    (flightFinish s lat lon ind2 r).1.state = s.state := by
  unfold flightFinish
  split
  · exact ⟨rfl, rfl, rfl, rfl, rfl⟩
  · exact ⟨rfl, rfl, rfl, rfl, rfl⟩
  · exact ⟨rfl, rfl, rfl, rfl, rfl⟩

/-- The roll-fix continuation never touches the log fields nor the state
snapshot. -/
theorem rollCont_logs (s : TelemState) (lat lon : ℚ) (ind1 : Dict)
    (r : Except PyExn Dict) :
    (rollCont s lat lon ind1 r).1.comments = s.comments ∧
    (rollCont s lat lon ind1 r).1.last_comment_ID = s.last_comment_ID ∧
    (rollCont s lat lon ind1 r).1.events = s.events ∧
    (rollCont s lat lon ind1 r).1.last_event_ID = s.last_event_ID ∧
    (rollCont s lat lon ind1 r).1.state = s.state := by
  unfold rollCont
  split
  · exact ⟨rfl, rfl, rfl, rfl, rfl⟩
  · exact flightFinish_logs s lat lon _ _

/-- The normalization block never touches the log fields nor the state
snapshot. -/
theorem normalizeFlight_logs (s : TelemState) (lat lon : ℚ) :
    (normalizeFlight s lat lon).1.comments = s.comments ∧
    (normalizeFlight s lat lon).1.last_comment_ID = s.last_comment_ID ∧
    (normalizeFlight s lat lon).1.events = s.events ∧
    (normalizeFlight s lat lon).1.last_event_ID = s.last_event_ID ∧
    (normalizeFlight s lat lon).1.state = s.state := by
  unfold normalizeFlight
  split
  · exact ⟨rfl, rfl, rfl, rfl, rfl⟩
  · exact rollCont_logs s lat lon _ _

/-- The `valid`-flag classification never touches the log fields nor the
state snapshot. -/
theorem validCheck_logs (s : TelemState) (lat lon : ℚ) :
    (validCheck s lat lon).1.comments = s.comments ∧
    (validCheck s lat lon).1.last_comment_ID = s.last_comment_ID ∧
    (validCheck s lat lon).1.events = s.events ∧
    (validCheck s lat lon).1.last_event_ID = s.last_event_ID ∧
    (validCheck s lat lon).1.state = s.state := by
  unfold validCheck validInd
  split
  · exact ⟨rfl, rfl, rfl, rfl, rfl⟩
  · unfold validIndB
    split
    · unfold validSt
      split
      · exact ⟨rfl, rfl, rfl, rfl, rfl⟩
      · unfold validStB
        split
        · exact normalizeFlight_logs s lat lon
        · exact ⟨rfl, rfl, rfl, rfl, rfl⟩
    · exact ⟨rfl, rfl, rfl, rfl, rfl⟩

/-- When the comments block raised nothing, `commentsCont` proceeds to
the events block. -/
theorem commentsCont_none (p : TelemState × Option PyExn) (lat lon : ℚ)
    (ef : Bool) (er : Except PyExn (List LogEntry)) (h : p.2 = none) :
    commentsCont p lat lon ef er =
      eventsCont
        (if ef then get_events p.1 er
         else ({ p.1 with events := .emptyDict }, none)) lat lon := by
  unfold commentsCont
  rw [h]

/-- When the events block raised nothing, `eventsCont` proceeds to the
classification. -/
theorem eventsCont_none (p : TelemState × Option PyExn) (lat lon : ℚ)
    (h : p.2 = none) : eventsCont p lat lon = validCheck p.1 lat lon := by
  unfold eventsCont
  rw [h]

/-- On a poll whose map, indicators and state fetches succeed, whose
comment fetch (if requested) succeeds and whose events accumulator (if
events are requested) is a list, the poll body runs through both side
blocks and reaches the classification on a state carrying the two fresh
snapshots. -/
theorem pollBody_ok (s : TelemState) (lat lon : ℚ) (ind st : Dict)
    (cf : Bool) (cr : Except PyExn (List LogEntry))
    (ef : Bool) (er : Except PyExn (List LogEntry))
    (hcf : cf = true → ∃ b, cr = .ok b)
    (hef : ef = true → ∃ l, s.events = .lst l) :
    ∃ s2, pollBody s (.ok (lat, lon)) (.ok ind) (.ok st) cf cr ef er =
        validCheck s2 lat lon ∧
      s2.indicators = ind ∧ s2.state = st ∧
      s2.full_telemetry = s.full_telemetry ∧
      s2.basic_telemetry = s.basic_telemetry ∧
      s2.connected = s.connected ∧
      (ef = false → s2.events = .emptyDict) := by
  cases cf with
  | false =>
    cases ef with
    | false => exact ⟨_, rfl, rfl, rfl, rfl, rfl, rfl, fun _ => rfl⟩
    | true =>
      obtain ⟨l, hl⟩ := hef rfl
      have h2 : (get_events { s with indicators := ind, state := st, comments := ([] : List LogEntry) } er).2 = none :=
        get_events_snd_lst _ er l hl
      exact ⟨_, eventsCont_none (get_events { s with indicators := ind, state := st, comments := ([] : List LogEntry) } er) lat lon h2,
        rfl, rfl, rfl, rfl, rfl, fun h => nomatch h⟩
  | true =>
    obtain ⟨b, rfl⟩ := hcf rfl
    have h1 : (get_comments { s with indicators := ind, state := st } (.ok b)).2 = none :=
      get_comments_snd_ok _ b
    have e1 := commentsCont_none
      (get_comments { s with indicators := ind, state := st } (.ok b)) lat lon ef er h1
    cases ef with
    | false =>
      exact ⟨_, e1.trans (eventsCont_none _ lat lon rfl),
        rfl, rfl, rfl, rfl, rfl, fun _ => rfl⟩
    | true =>
      obtain ⟨l, hl⟩ := hef rfl
      have h2 : (get_events
          (get_comments { s with indicators := ind, state := st } (.ok b)).1 er).2 = none :=
        get_events_snd_lst _ er l hl
      exact ⟨_, e1.trans (eventsCont_none _ lat lon h2),
        rfl, rfl, rfl, rfl, rfl, fun h => nomatch h⟩

/-- The classification preserves the log invariant. -/
theorem validCheck_logInv (s : TelemState) (lat lon : ℚ) (h : LogInv s) :
    LogInv (validCheck s lat lon).1 := by
  obtain ⟨h1, h2, h3, h4, _⟩ := validCheck_logs s lat lon
  exact LogInv_of_eq s _ h1 h2 h3 h4 h

/-- The events continuation preserves the log invariant. -/
theorem eventsCont_logInv (p : TelemState × Option PyExn) (lat lon : ℚ)
    (h : LogInv p.1) : LogInv (eventsCont p lat lon).1 := by
  unfold eventsCont
  cases hp : p.2 with
  | some e => exact h
  | none => exact validCheck_logInv p.1 lat lon h

/-- The comments continuation preserves the log invariant. -/
theorem commentsCont_logInv (p : TelemState × Option PyExn) (lat lon : ℚ)
    (ef : Bool) (er : Except PyExn (List LogEntry)) (h : LogInv p.1) :
    LogInv (commentsCont p lat lon ef er).1 := by
  unfold commentsCont
  cases hp : p.2 with
  | some e => exact h
  | none =>
    cases ef with
    | false =>
      refine eventsCont_logInv _ lat lon ?_
      exact ⟨h.1, (fun x xs hx => nomatch hx)⟩
    | true => exact eventsCont_logInv _ lat lon (get_events_logInv p.1 er h)

/-- The whole poll body preserves the log invariant. -/
theorem pollBody_logInv (s : TelemState) (m : Except PyExn (ℚ × ℚ))
    (i st : Except PyExn Dict) (cf : Bool) (cr : Except PyExn (List LogEntry))
    (ef : Bool) (er : Except PyExn (List LogEntry)) (h : LogInv s) :
    LogInv (pollBody s m i st cf cr ef er).1 := by
  unfold pollBody
  rcases m with e | ⟨lat, lon⟩
  · exact h
  · rcases i with e | ind
    · exact h
    · rcases st with e | std
      · exact h
      · cases cf with
        | false =>
          refine commentsCont_logInv _ lat lon ef er ?_
          exact ⟨(fun x xs hx => nomatch hx), h.2⟩
        | true => exact commentsCont_logInv _ lat lon ef er (get_comments_logInv _ cr h)

/-- The outer handler of `get_telemetry` preserves the log invariant. -/
theorem telemWrap_logInv (p : TelemState × Option PyExn) (h : LogInv p.1) :
    LogInv (telemWrap p) := by
  unfold telemWrap
  cases hp : p.2 with
  | none => exact h
  | some e => exact LogInv_of_eq p.1 _ rfl rfl rfl rfl h

/-- A full `get_telemetry` call preserves the log invariant. -/
theorem get_telemetry_logInv (s : TelemState) (m : Except PyExn (ℚ × ℚ))
    (i st : Except PyExn Dict) (cf : Bool) (cr : Except PyExn (List LogEntry))
    (ef : Bool) (er : Except PyExn (List LogEntry)) (h : LogInv s) :
    LogInv (get_telemetry s m i st cf cr ef er) :=
  telemWrap_logInv _ (pollBody_logInv _ m i st cf cr ef er h)

/-- The `get_status` classification preserves the log invariant. -/
theorem statusValid_logInv (s1 : TelemState) (h : LogInv s1) :
    LogInv (statusValid s1).1 := by
  unfold statusValid
  split
  · exact h
  · split
    · split
      · exact h
      · split
        · split
          · exact h
          · exact LogInv_of_eq s1 _ rfl rfl rfl rfl h
        · exact h
    · exact h

/-- The continuation after events inside `get_status` preserves the log
invariant. -/
theorem statusAfterEvents_logInv (p : TelemState × Option PyExn)
    (h : LogInv p.1) : LogInv (statusAfterEvents p).1 := by
  unfold statusAfterEvents
  cases hp : p.2 with
  | some e => exact h
  | none => exact statusValid_logInv p.1 h

/-- The body of `get_status` preserves the log invariant. -/
theorem statusBody_logInv (s : TelemState) (b : Except PyExn Bool)
    (i st : Except PyExn Dict) (er : Except PyExn (List LogEntry))
    (h : LogInv s) : LogInv (statusBody s b i st er).1 := by
  unfold statusBody
  rcases b with e | bb
  · exact h
  · cases bb
    · exact h
    · rcases i with e | ind
      · exact h
      · rcases st with e | std
        · exact h
        · exact statusAfterEvents_logInv _ (get_events_logInv _ er h)

/-- The exception handlers of `get_status` leave the state unchanged. -/
theorem statusWrap_logInv (p : TelemState × Except PyExn Int)
    (h : LogInv p.1) : LogInv (statusWrap p).1 := by
  unfold statusWrap
  rcases hp : p.2 with e | code
  · rcases e with m | m | m | m | m <;> exact h
  · exact h

/-- A full `get_status` call preserves the log invariant. -/
theorem get_status_logInv (s : TelemState) (b : Except PyExn Bool)
    (i st : Except PyExn Dict) (er : Except PyExn (List LogEntry))
    (h : LogInv s) : LogInv (get_status s b i st er).1 :=
  statusWrap_logInv _ (statusBody_logInv _ b i st er h)

/-- A freshly constructed interface satisfies the log invariant. -/
theorem init_logInv : LogInv TelemInterface.init := by
  constructor
  · intro x xs hx
    simp [TelemInterface.init] at hx
  · intro x xs hx
    simp [TelemInterface.init] at hx

/-- Every observable operation preserves the log invariant. -/
theorem telemStep_logInv (a b : TelemState) (h : TelemStep a b)
    (ha : LogInv a) : LogInv b := by
  cases h with
  | comments r => exact get_comments_logInv _ r ha
  | events r => exact get_events_logInv _ r ha
  | telem m i st cf cr ef er => exact get_telemetry_logInv _ m i st cf cr ef er ha
  | status b i st er => exact get_status_logInv _ b i st er ha

/-- Every reachable interface state satisfies the log invariant. -/
theorem reachable_logInv (s : TelemState) (h : Reachable s) : LogInv s := by
  induction h with
  | refl => exact init_logInv
  | tail hab hbc ih => exact telemStep_logInv _ _ hbc ih

/-- When the angle field is absent or numeric, the sign fix succeeds and
changes no other key. -/
theorem fixAngle_ok (d : Dict) (k : String)
    (h : ∀ v, dictGet d k = some v → (asNum v).isSome) :
    ∃ d', fixAngle d k = .ok d' ∧
      ∀ k', k' ≠ k → dictGet d' k' = dictGet d k' := by
  unfold fixAngle
  cases hd : dictGet d k with
  | none => exact ⟨_, rfl, fun k' hk => dictGet_dictSet_ne d k k' _ hk⟩
  | some v =>
    have hs := h v hd
    cases ha : asNum v with
    | none =>
      rw [ha] at hs
      simp at hs
    | some qa =>
      refine ⟨dictSet d k (.num (-qa)), ?_,
        fun k' hk => dictGet_dictSet_ne d k k' _ hk⟩
      have e1 : fixVal d k (some v) = fixNum d k (asNum v) := rfl
      rw [e1, ha]
      rfl

/-- Characterization of `find_altitude` on snapshots with a string `type`
and a numeric first altitude field: it returns the first present field in
the preference order, feet-converted exactly on the imperial allow-list
and raw otherwise. -/
theorem find_altitude_ok (ind : Dict) (nm : String) (q : ℚ)
    (ht : dictGet ind "type" = some (.str nm))
    (hq : asNum (specFirstAlt ind) = some q) :
    find_altitude ind =
      .ok (if nm.take 2 ∈ METRICS_PLANES then Value.num (q * FT_TO_M)
           else specFirstAlt ind) := by
  unfold find_altitude
  rw [ht]
  have e1 : findAltOfType ind (some (.str nm)) =
      altChain ind (decide (nm.take 2 ∈ METRICS_PLANES)) := rfl
  rw [e1]
  by_cases himp : nm.take 2 ∈ METRICS_PLANES
  · rw [decide_eq_true himp, if_pos himp]
    unfold altChain
    unfold specFirstAlt at hq
    cases h10 : dictGet ind "altitude_10k" with
    | some v =>
      rw [h10] at hq
      have hq' : asNum v = some q := hq
      show convFt v = .ok (.num (q * FT_TO_M))
      unfold convFt
      rw [hq']
    | none =>
      rw [h10] at hq
      cases hhr : dictGet ind "altitude_hour" with
      | some v =>
        rw [hhr] at hq
        have hq' : asNum v = some q := hq
        show convFt v = .ok (.num (q * FT_TO_M))
        unfold convFt
        rw [hq']
      | none =>
        rw [hhr] at hq
        cases hmin : dictGet ind "altitude_min" with
        | some v =>
          rw [hmin] at hq
          have hq' : asNum v = some q := hq
          show convFt v = .ok (.num (q * FT_TO_M))
          unfold convFt
          rw [hq']
        | none =>
          rw [hmin] at hq
          have hq' : asNum (Value.num 0) = some q := hq
          have h0 : (0 : ℚ) = q := by simpa [asNum] using hq'
          show Except.ok (Value.num 0) = .ok (.num (q * FT_TO_M))
          rw [← h0, zero_mul]
  · rw [decide_eq_false himp, if_neg himp]
    unfold altChain specFirstAlt
    cases h10 : dictGet ind "altitude_10k" with
    | some v => rfl
    | none =>
      cases hhr : dictGet ind "altitude_hour" with
      | some v => rfl
      | none =>
        cases hmin : dictGet ind "altitude_min" with
        | some v => rfl
        | none => rfl

/-- When both snapshots are valid, the angle fields are absent-or-numeric
and the `type` key is absent, the normalization block aborts with
`IN_MENU` and raises nothing. -/
theorem normalizeFlight_menu (s : TelemState) (lat lon : ℚ)
    (hp : ∀ v, dictGet s.indicators "aviahorizon_pitch" = some v → (asNum v).isSome)
    (hr : ∀ v, dictGet s.indicators "aviahorizon_roll" = some v → (asNum v).isSome)
    (ht : dictGet s.indicators "type" = none) :
    ∃ ind2, normalizeFlight s lat lon =
      ({ s with indicators := ind2, status := Status.IN_MENU }, none) := by
  obtain ⟨d1, h1, hf1⟩ := fixAngle_ok s.indicators "aviahorizon_pitch" hp
  have hr1 : ∀ v, dictGet d1 "aviahorizon_roll" = some v → (asNum v).isSome := by
    intro v hv
    rw [hf1 "aviahorizon_roll" (by decide)] at hv
    exact hr v hv
  obtain ⟨d2, h2, hf2⟩ := fixAngle_ok d1 "aviahorizon_roll" hr1
  have ht2 : dictGet d2 "type" = none := by
    rw [hf2 "type" (by decide), hf1 "type" (by decide)]
    exact ht
  have hfa : find_altitude d2 = .error (.keyError "type") := by
    unfold find_altitude
    rw [ht2]
    rfl
  refine ⟨d2, ?_⟩
  unfold normalizeFlight
  rw [h1]
  show rollCont s lat lon d1 (fixAngle d1 "aviahorizon_roll") = _
  rw [h2]
  show flightFinish s lat lon d2 (find_altitude d2) = _
  rw [hfa]
  rfl

/-- When both snapshots are valid, the angle fields are absent-or-numeric,
`type` is a string and the first altitude field is numeric, the
normalization block completes: no exception, status `IN_FLIGHT`, and
`full_telemetry` is the double merge with the map coordinates written
last. -/
theorem normalizeFlight_flight (s : TelemState) (lat lon : ℚ)
    (hp : ∀ v, dictGet s.indicators "aviahorizon_pitch" = some v → (asNum v).isSome)
    (hr : ∀ v, dictGet s.indicators "aviahorizon_roll" = some v → (asNum v).isSome)
    (nm : String) (ht : dictGet s.indicators "type" = some (.str nm))
    (q : ℚ) (hq : asNum (specFirstAlt s.indicators) = some q) :
    (normalizeFlight s lat lon).2 = none ∧
    (normalizeFlight s lat lon).1.status = Status.IN_FLIGHT ∧
    ∃ ind3, (normalizeFlight s lat lon).1.full_telemetry =
      dictSet (dictSet (combine_dicts (combine_dicts s.full_telemetry ind3) s.state)
        "lat" (.num lat)) "lon" (.num lon) := by
  obtain ⟨d1, h1, hf1⟩ := fixAngle_ok s.indicators "aviahorizon_pitch" hp
  have hr1 : ∀ v, dictGet d1 "aviahorizon_roll" = some v → (asNum v).isSome := by
    intro v hv
    rw [hf1 "aviahorizon_roll" (by decide)] at hv
    exact hr v hv
  obtain ⟨d2, h2, hf2⟩ := fixAngle_ok d1 "aviahorizon_roll" hr1
  have ht2 : dictGet d2 "type" = some (.str nm) := by
    rw [hf2 "type" (by decide), hf1 "type" (by decide)]
    exact ht
  have hsp : specFirstAlt d2 = specFirstAlt s.indicators := by
    unfold specFirstAlt
    rw [hf2 "altitude_10k" (by decide), hf1 "altitude_10k" (by decide),
        hf2 "altitude_hour" (by decide), hf1 "altitude_hour" (by decide),
        hf2 "altitude_min" (by decide), hf1 "altitude_min" (by decide)]
  have hq2 : asNum (specFirstAlt d2) = some q := by
    rw [hsp]
    exact hq
  have hfa := find_altitude_ok d2 nm q ht2 hq2
  have hNF : normalizeFlight s lat lon =
      flightFinish s lat lon d2 (find_altitude d2) := by
    unfold normalizeFlight
    rw [h1]
    show rollCont s lat lon d1 (fixAngle d1 "aviahorizon_roll") = _
    rw [h2]
    rfl
  rw [hNF, hfa]
  exact ⟨rfl, rfl, dictSet d2 "alt_m"
    (if nm.take 2 ∈ METRICS_PLANES then Value.num (q * FT_TO_M) else specFirstAlt d2), rfl⟩

/-- An event fetch that fails behaves exactly like one that returns an
empty batch (the failure is swallowed and extending by `[]` is a no-op;
on the `{}` accumulator both fail identically). -/
theorem get_events_error_ok_nil (s : TelemState) (e : PyExn) :
    get_events s (.error e) = get_events s (.ok []) := by
  unfold get_events eventsStep
  cases hev : s.events with
  | lst l => simp
  | emptyDict => simp

/-- The comments continuation does not distinguish a failing event fetch
from an empty successful one. -/
theorem commentsCont_er_congr (p : TelemState × Option PyExn) (lat lon : ℚ)
    (ef : Bool) (e : PyExn) :
    commentsCont p lat lon ef (.error e) = commentsCont p lat lon ef (.ok []) := by
  unfold commentsCont
  cases hp : p.2 with
  | some e2 => rfl
  | none =>
    cases ef with
    | false => rfl
    | true => rw [get_events_error_ok_nil]

/-- The poll body does not distinguish a failing event fetch from an
empty successful one. -/
theorem pollBody_er_congr (s : TelemState) (m : Except PyExn (ℚ × ℚ))
    (i stR : Except PyExn Dict) (cf : Bool) (cr : Except PyExn (List LogEntry))
    (ef : Bool) (e : PyExn) :
    pollBody s m i stR cf cr ef (.error e) = pollBody s m i stR cf cr ef (.ok []) := by
  unfold pollBody
  rcases m with e2 | ⟨lat, lon⟩
  · rfl
  · rcases i with e2 | ind
    · rfl
    · rcases stR with e2 | std
      · rfl
      · exact commentsCont_er_congr _ lat lon ef e

/-- C1: end-to-end scenario 1 as the spec states it is false on the code:
with airframe type `fw190` the prefix `fw` is not in `METRICS_PLANES`, so
`find_altitude` returns the raw `altitude_10k` value 1000, not
1000 · 0.3048 = 304.8. -/
theorem C1_scenario1_counterexample :
    dictGet run1.basic_telemetry "altitude" = some (Value.num 1000) ∧
    dictGet run1.basic_telemetry "altitude" ≠ some (Value.num (mkRat 3048 10)) := by
  decide

/-- C1 (amended): for the scenario-1 snapshots the poll classifies
IN_FLIGHT with pitch −2 and roll 3 as the spec says, but the reported
altitude is the raw value 1000 because `fw` is not an imperial prefix. -/
theorem C1_scenario1_amended :
    run1.status = Status.IN_FLIGHT ∧
    dictGet run1.basic_telemetry "pitch" = some (Value.num (-2)) ∧
    dictGet run1.basic_telemetry "roll" = some (Value.num 3) ∧
    dictGet run1.basic_telemetry "altitude" = some (Value.num 1000) := by
  decide

/-- C2: for every indicators snapshot whose `type` is a string and whose
first present altitude field (in the order `altitude_10k`,
`altitude_hour`, `altitude_min`, defaulting to 0) is numeric,
`find_altitude` returns exactly that field, multiplied by 0.3048 when the
two-character type prefix is in `METRICS_PLANES` and raw otherwise. -/
theorem C2_find_altitude_preference (ind : Dict) (nm : String) (q : ℚ)
    (ht : dictGet ind "type" = some (Value.str nm))
    (hq : asNum (specFirstAlt ind) = some q) :
    find_altitude ind =
      .ok (if nm.take 2 ∈ METRICS_PLANES then Value.num (q * FT_TO_M)
           else specFirstAlt ind) :=
  find_altitude_ok ind nm q ht hq

/-- Witness for C2 at a concrete imperial-prefix snapshot. -/
theorem C2_find_altitude_preference_witness :
    dictGet indW "type" = some (Value.str "p-51") ∧
    asNum (specFirstAlt indW) = some 200 ∧
    find_altitude indW =
      .ok (if ("p-51" : String).take 2 ∈ METRICS_PLANES then Value.num (200 * FT_TO_M)
           else specFirstAlt indW) :=
  ⟨by decide, by decide,
   C2_find_altitude_preference indW "p-51" 200 (by decide) (by decide)⟩

/-- C3: the claim that a connect-timeout yields GAME_NOT_RUNNING in both
poll operations is false: `get_telemetry` has no `except ConnectTimeout`
clause and its message-substring test does not match timeout messages, so
it records OTHER_ERROR. -/
theorem C3_connect_timeout_counterexample :
    (get_telemetry TelemInterface.init (.ok (0, 0))
      (.error (.connectTimeout ctMsg)) (.ok []) false (.ok []) false (.ok [])).status
        = Status.OTHER_ERROR ∧
    Status.OTHER_ERROR ≠ Status.WT_NOT_RUNNING := by
  decide

/-- C3 (amended): on a connect-timeout during the indicators fetch,
`get_status` returns WT_NOT_RUNNING (its dedicated handler), while
`get_telemetry` records OTHER_ERROR whenever the timeout message lacks
the connection-refusal substring; neither lets the exception escape
(both functions are total, every branch returning a state). -/
theorem C3_connect_timeout_amended (s : TelemState) (msg : String)
    (h : containsSubstr REFUSAL_SUBSTR msg = false)
    (lat lon : ℚ) (stR stR' : Except PyExn Dict) (cf : Bool)
    (cr : Except PyExn (List LogEntry)) (ef : Bool)
    (er er' : Except PyExn (List LogEntry)) :
    (get_telemetry s (.ok (lat, lon)) (.error (.connectTimeout msg)) stR
        cf cr ef er).status = Status.OTHER_ERROR ∧
    (get_status s (.ok true) (.error (.connectTimeout msg)) stR' er').2
        = Status.WT_NOT_RUNNING := by
  constructor
  · have hr0 : refusalMsg (.connectTimeout msg) = false := h
    show (if refusalMsg (.connectTimeout msg) then Status.WT_NOT_RUNNING
          else Status.OTHER_ERROR) = Status.OTHER_ERROR
    rw [hr0]
    rfl
  · rfl

/-- Witness for C3 (amended) at the concrete timeout message. -/
theorem C3_connect_timeout_amended_witness :
    containsSubstr REFUSAL_SUBSTR ctMsg = false ∧
    ((get_telemetry TelemInterface.init (.ok (0, 0))
        (.error (.connectTimeout ctMsg)) (.ok []) false (.ok []) false (.ok [])).status
          = Status.OTHER_ERROR ∧
     (get_status TelemInterface.init (.ok true) (.error (.connectTimeout ctMsg))
        (.ok []) (.ok [])).2 = Status.WT_NOT_RUNNING) :=
  ⟨by decide,
   C3_connect_timeout_amended TelemInterface.init ctMsg (by decide) 0 0
     (.ok []) (.ok []) false (.ok []) false (.ok []) (.ok [])⟩

/-- C4: the claim that comment/event fetch failures never change the
status is false for comments: `get_comments` has no error handling, so a
failing comment fetch propagates to the outer handler, aborts the poll
and flips the status from IN_FLIGHT to OTHER_ERROR. -/
theorem C4_comment_failure_counterexample :
    run4fail.status = Status.OTHER_ERROR ∧
    run4ok.status = Status.IN_FLIGHT ∧
    Status.OTHER_ERROR ≠ Status.IN_FLIGHT := by
  decide

/-- C4 (amended): a failing event fetch indeed never changes the poll at
all — the run equals the run with an empty successful event fetch — but a
failing comment fetch aborts the poll: with both snapshot fetches
succeeded, the resulting status is dictated by the outer handler applied
to the comment-fetch exception. -/
theorem C4_event_failure_harmless :
    (∀ (s : TelemState) (m : Except PyExn (ℚ × ℚ)) (i stR : Except PyExn Dict)
      (cf : Bool) (cr : Except PyExn (List LogEntry)) (ef : Bool) (e : PyExn),
      get_telemetry s m i stR cf cr ef (.error e) =
        get_telemetry s m i stR cf cr ef (.ok [])) ∧
    (∀ (s : TelemState) (lat lon : ℚ) (ind stD : Dict) (ce : PyExn)
      (ef : Bool) (er : Except PyExn (List LogEntry)),
      (get_telemetry s (.ok (lat, lon)) (.ok ind) (.ok stD) true (.error ce) ef er).status =
        if refusalMsg ce then Status.WT_NOT_RUNNING else Status.OTHER_ERROR) := by
  constructor
  · intro s m i stR cf cr ef e
    unfold get_telemetry
    rw [pollBody_er_congr]
  · intro s lat lon ind stD ce ef er
    rfl

/-- C5: watermark monotonicity as stated — over every sequence of server
responses — is false for events: the event watermark is the id of the
last accumulated element, so a batch with a smaller id than the current
watermark decreases it (5, then 3). -/
theorem C5_event_watermark_counterexample :
    (get_events TelemInterface.init (.ok [⟨5⟩])).1.last_event_ID = 5 ∧
    (get_events (get_events TelemInterface.init (.ok [⟨5⟩])).1 (.ok [⟨3⟩])).1.last_event_ID = 3 ∧
    ¬ ((5 : Int) ≤ 3) := by
  decide

/-- C5 (amended): on every reachable interface state, neither watermark
decreases across a fetch provided every id in a successfully fetched
batch is at least the current watermark (as when the server honours the
`lastId`/`lastDmg` query parameters); failing fetches never decrease
them either. -/
theorem C5_watermark_monotone (s : TelemState) (h : Reachable s) :
    (∀ batch : List LogEntry, (∀ c ∈ batch, s.last_comment_ID ≤ c.id) →
      s.last_comment_ID ≤ (get_comments s (.ok batch)).1.last_comment_ID) ∧
    (∀ e : PyExn, (get_comments s (.error e)).1.last_comment_ID = s.last_comment_ID) ∧
    (∀ batch : List LogEntry, (∀ c ∈ batch, s.last_event_ID ≤ c.id) →
      s.last_event_ID ≤ (get_events s (.ok batch)).1.last_event_ID) ∧
    (∀ e : PyExn, s.last_event_ID ≤ (get_events s (.error e)).1.last_event_ID) := by
  obtain ⟨hcm, hev⟩ := reachable_logInv s h
  refine ⟨?_, ?_, ?_, ?_⟩
  · intro batch hb
    show s.last_comment_ID ≤ (commentsStep s.comments s.last_comment_ID (.ok batch)).2.1
    simp only [commentsStep]
    cases hc : s.comments ++ batch with
    | nil => exact le_refl _
    | cons x xs =>
      show s.last_comment_ID ≤ maxIds x xs
      cases hcs : s.comments with
      | nil =>
        rw [hcs, List.nil_append] at hc
        have hx : x ∈ batch := by
          rw [hc]
          exact List.mem_cons_self x xs
        exact le_trans (hb x hx) (le_maxIds_head x xs)
      | cons c cs0 =>
        rw [hcs, List.cons_append] at hc
        injection hc with hc1 hc2
        rw [← hc1, ← hc2]
        exact le_trans (hcm c cs0 hcs) (maxIds_le_append c cs0 batch)
  · intro e
    rfl
  · intro batch hb
    show s.last_event_ID ≤ (eventsStep s.events s.last_event_ID (.ok batch)).2.1
    cases hevs : s.events with
    | emptyDict => exact le_refl _
    | lst l =>
      show s.last_event_ID ≤ (eventsWatermark (.lst (l ++ batch)) s.last_event_ID).2.1
      cases hc : l ++ batch with
      | nil => exact le_refl _
      | cons x xs =>
        show s.last_event_ID ≤ lastId x xs
        cases hbz : batch with
        | nil =>
          rw [hbz, List.append_nil] at hc
          refine le_of_eq (hev x xs ?_)
          rw [hevs, hc]
        | cons b bs =>
          rw [hbz] at hc
          rw [lastId_of_append_eq l x b xs bs hc.symm]
          obtain ⟨c, hcmem, hcid⟩ := lastId_mem bs b
          rw [← hcid]
          refine hb c ?_
          rw [hbz]
          exact hcmem
  · intro e
    show s.last_event_ID ≤ (eventsStep s.events s.last_event_ID (.error e)).2.1
    cases hevs : s.events with
    | emptyDict => exact le_refl _
    | lst l =>
      cases l with
      | nil => exact le_refl _
      | cons x xs =>
        show s.last_event_ID ≤ lastId x xs
        exact le_of_eq (hev x xs hevs)

/-- Witness for C5 (amended): a comment fetch on a fresh interface with a
batch above the initial watermark. -/
theorem C5_watermark_monotone_witness :
    Reachable TelemInterface.init ∧
    (∀ c ∈ [LogEntry.mk 2], TelemInterface.init.last_comment_ID ≤ c.id) ∧
    TelemInterface.init.last_comment_ID ≤
      (get_comments TelemInterface.init (.ok [LogEntry.mk 2])).1.last_comment_ID :=
  ⟨Relation.ReflTransGen.refl, by decide,
   (C5_watermark_monotone TelemInterface.init Relation.ReflTransGen.refl).1
     [LogEntry.mk 2] (by decide)⟩

/-- C6: the claim is false as a universal statement: with `events=True`
and the `{}` events accumulator left by an earlier `events=False` poll,
the uncaught `KeyError` from `get_events` reaches the outer handler
before the valid-flag check, so a valid-but-typeless poll ends
OTHER_ERROR, not IN_MENU. -/
theorem C6_missing_type_counterexample :
    dictGet stOk "valid" = some (Value.bool true) ∧
    dictGet stOk "type" = none ∧
    preDict.events = EventsAcc.emptyDict ∧
    run6.status = Status.OTHER_ERROR ∧
    Status.OTHER_ERROR ≠ Status.IN_MENU := by
  decide

/-- C6 (amended): when the transport phases succeed (map, indicators and
state fetches; the comment fetch when requested; and the events
accumulator is a list when events are requested), both snapshots are
truthy-valid, the sign-convention fields are absent-or-numeric and the
indicators snapshot lacks the `type` key, `get_telemetry` classifies
IN_MENU. -/
theorem C6_missing_type_in_menu (s : TelemState) (lat lon : ℚ) (ind stD : Dict)
    (cf : Bool) (cr : Except PyExn (List LogEntry)) (ef : Bool)
    (er : Except PyExn (List LogEntry))
    (hcf : cf = true → ∃ b, cr = .ok b)
    (hef : ef = true → ∃ l, s.events = .lst l)
    (vi : Value) (hvi : dictGet ind "valid" = some vi) (hvit : truthy vi = true)
    (vs : Value) (hvs : dictGet stD "valid" = some vs) (hvst : truthy vs = true)
    (hp : ∀ v, dictGet ind "aviahorizon_pitch" = some v → (asNum v).isSome)
    (hr : ∀ v, dictGet ind "aviahorizon_roll" = some v → (asNum v).isSome)
    (ht : dictGet ind "type" = none) :
    (get_telemetry s (.ok (lat, lon)) (.ok ind) (.ok stD) cf cr ef er).status
      = Status.IN_MENU := by
  obtain ⟨s2, heq, hind, hst, _, _, _, _⟩ :=
    pollBody_ok { s with connected := false, full_telemetry := [], basic_telemetry := [] }
      lat lon ind stD cf cr ef er hcf hef
  have hv1 : validCheck s2 lat lon = validIndB s2 lat lon (truthy vi) := by
    unfold validCheck
    rw [hind, hvi]
    rfl
  obtain ⟨ind2, hnm⟩ := normalizeFlight_menu s2 lat lon
    (by rw [hind]; exact hp) (by rw [hind]; exact hr) (by rw [hind]; exact ht)
  show (telemWrap (pollBody
    { s with connected := false, full_telemetry := [], basic_telemetry := [] }
    (.ok (lat, lon)) (.ok ind) (.ok stD) cf cr ef er)).status = Status.IN_MENU
  rw [heq, hv1, hvit]
  show (telemWrap (validSt s2 lat lon (dictGet s2.state "valid"))).status = Status.IN_MENU
  rw [hst, hvs]
  show (telemWrap (validStB s2 lat lon (truthy vs))).status = Status.IN_MENU
  rw [hvst]
  show (telemWrap (normalizeFlight s2 lat lon)).status = Status.IN_MENU
  rw [hnm]
  rfl

/-- Witness for C6 (amended) on a fresh interface with a valid typeless
snapshot pair. -/
theorem C6_missing_type_in_menu_witness :
    dictGet stOk "valid" = some (Value.bool true) ∧
    dictGet stOk "type" = none ∧
    (get_telemetry TelemInterface.init (.ok (0, 0)) (.ok stOk) (.ok stOk)
      false (.ok []) false (.ok [])).status = Status.IN_MENU :=
  ⟨by decide, by decide,
   C6_missing_type_in_menu TelemInterface.init 0 0 stOk stOk false (.ok []) false (.ok [])
     (fun h => nomatch h) (fun h => nomatch h)
     (Value.bool true) (by decide) (by decide)
     (Value.bool true) (by decide) (by decide)
     (fun v hv => by simp [stOk, dictGet] at hv)
     (fun v hv => by simp [stOk, dictGet] at hv)
     (by decide)⟩

/-- C7: the claim is false as a universal statement, through the same
`{}`-accumulator corner as C6: with `events=True` the `KeyError` raised
by `get_events` pre-empts the valid-flag check, so an invalid-snapshot
poll ends OTHER_ERROR, not NO_MISSION. -/
theorem C7_invalid_counterexample :
    dictGet [("valid", Value.bool false)] "valid" = some (Value.bool false) ∧
    preDict.events = EventsAcc.emptyDict ∧
    run7.status = Status.OTHER_ERROR ∧
    Status.OTHER_ERROR ≠ Status.NO_MISSION := by
  decide

/-- C7 (amended): when the transport phases succeed and the events
accumulator is a list when events are requested, a poll whose indicators
snapshot is falsy-valid — or truthy-valid with a falsy-valid state
snapshot — classifies NO_MISSION, leaves `connected = false` and leaves
both telemetry dicts empty. -/
theorem C7_invalid_no_mission (s : TelemState) (lat lon : ℚ) (ind stD : Dict)
    (cf : Bool) (cr : Except PyExn (List LogEntry)) (ef : Bool)
    (er : Except PyExn (List LogEntry))
    (hcf : cf = true → ∃ b, cr = .ok b)
    (hef : ef = true → ∃ l, s.events = .lst l)
    (hv : (∃ vi, dictGet ind "valid" = some vi ∧ truthy vi = false) ∨
          (∃ vi vs, dictGet ind "valid" = some vi ∧ truthy vi = true ∧
            dictGet stD "valid" = some vs ∧ truthy vs = false)) :
    (get_telemetry s (.ok (lat, lon)) (.ok ind) (.ok stD) cf cr ef er).status
        = Status.NO_MISSION ∧
    (get_telemetry s (.ok (lat, lon)) (.ok ind) (.ok stD) cf cr ef er).connected = false ∧
    (get_telemetry s (.ok (lat, lon)) (.ok ind) (.ok stD) cf cr ef er).full_telemetry = [] ∧
    (get_telemetry s (.ok (lat, lon)) (.ok ind) (.ok stD) cf cr ef er).basic_telemetry = [] := by
  obtain ⟨s2, heq, hind, hst, hfull, hbasic, hconn, _⟩ :=
    pollBody_ok { s with connected := false, full_telemetry := [], basic_telemetry := [] }
      lat lon ind stD cf cr ef er hcf hef
  have hvc : validCheck s2 lat lon = ({ s2 with status := Status.NO_MISSION }, none) := by
    rcases hv with ⟨vi, hvi, hvif⟩ | ⟨vi, vs, hvi, hvit, hvs, hvsf⟩
    · have e1 : validCheck s2 lat lon = validIndB s2 lat lon (truthy vi) := by
        unfold validCheck
        rw [hind, hvi]
        rfl
      rw [e1, hvif]
      rfl
    · have e1 : validCheck s2 lat lon = validIndB s2 lat lon (truthy vi) := by
        unfold validCheck
        rw [hind, hvi]
        rfl
      have e2 : validSt s2 lat lon (dictGet s2.state "valid")
          = validStB s2 lat lon (truthy vs) := by
        rw [hst, hvs]
        rfl
      rw [e1, hvit]
      show validSt s2 lat lon (dictGet s2.state "valid") = _
      rw [e2, hvsf]
      rfl
  have ht' : get_telemetry s (.ok (lat, lon)) (.ok ind) (.ok stD) cf cr ef er
      = { s2 with status := Status.NO_MISSION } := by
    unfold get_telemetry
    rw [heq, hvc]
    rfl
  rw [ht']
  exact ⟨rfl, hconn.trans rfl, hfull.trans rfl, hbasic.trans rfl⟩

/-- Witness for C7 (amended) on a fresh interface with a falsy-valid
indicators snapshot. -/
theorem C7_invalid_no_mission_witness :
    dictGet [("valid", Value.bool false)] "valid" = some (Value.bool false) ∧
    ((get_telemetry TelemInterface.init (.ok (0, 0)) (.ok [("valid", Value.bool false)])
        (.ok []) false (.ok []) false (.ok [])).status = Status.NO_MISSION ∧
     (get_telemetry TelemInterface.init (.ok (0, 0)) (.ok [("valid", Value.bool false)])
        (.ok []) false (.ok []) false (.ok [])).connected = false ∧
     (get_telemetry TelemInterface.init (.ok (0, 0)) (.ok [("valid", Value.bool false)])
        (.ok []) false (.ok []) false (.ok [])).full_telemetry = [] ∧
     (get_telemetry TelemInterface.init (.ok (0, 0)) (.ok [("valid", Value.bool false)])
        (.ok []) false (.ok []) false (.ok [])).basic_telemetry = []) :=
  ⟨by decide,
   C7_invalid_no_mission TelemInterface.init 0 0 [("valid", Value.bool false)] []
     false (.ok []) false (.ok [])
     (fun h => nomatch h) (fun h => nomatch h)
     (Or.inl ⟨Value.bool false, by decide, by decide⟩)⟩

/-- C8: the claim that the state snapshot's value wins on every shared
key is false for `lat` (and `lon`): the map collaborator's coordinates
are written after the merge, overwriting the state snapshot's value. -/
theorem C8_merge_counterexample :
    dictGet ind8 "lat" = some (Value.num 1) ∧
    dictGet st8 "lat" = some (Value.num 2) ∧
    dictGet run8.full_telemetry "lat" = some (Value.num 7) ∧
    some (Value.num 7) ≠ some (Value.num 2) := by
  decide

/-- C8 (amended): on every poll that completes normalization, for every
key of the (duplicate-free) state snapshot other than `lat` and `lon`,
`full_telemetry` carries the state snapshot's value — the state is merged
second and wins over the normalized indicators — while `lat`/`lon` are
subsequently overwritten with the map collaborator's coordinates. -/
theorem C8_state_wins_except_map (s : TelemState) (lat lon : ℚ) (ind stD : Dict)
    (cf : Bool) (cr : Except PyExn (List LogEntry)) (ef : Bool)
    (er : Except PyExn (List LogEntry))
    (hcf : cf = true → ∃ b, cr = .ok b)
    (hef : ef = true → ∃ l, s.events = .lst l)
    (vi : Value) (hvi : dictGet ind "valid" = some vi) (hvit : truthy vi = true)
    (vs : Value) (hvs : dictGet stD "valid" = some vs) (hvst : truthy vs = true)
    (hp : ∀ v, dictGet ind "aviahorizon_pitch" = some v → (asNum v).isSome)
    (hr : ∀ v, dictGet ind "aviahorizon_roll" = some v → (asNum v).isSome)
    (nm : String) (ht : dictGet ind "type" = some (Value.str nm))
    (q : ℚ) (hq : asNum (specFirstAlt ind) = some q)
    (k : String) (v : Value) (hk : dictGet stD k = some v)
    (hnd : (stD.map Prod.fst).Nodup)
    (hklat : k ≠ "lat") (hklon : k ≠ "lon") :
    dictGet (get_telemetry s (.ok (lat, lon)) (.ok ind) (.ok stD) cf cr ef er).full_telemetry k
      = some v := by
  obtain ⟨s2, heq, hind, hst, _, _, _, _⟩ :=
    pollBody_ok { s with connected := false, full_telemetry := [], basic_telemetry := [] }
      lat lon ind stD cf cr ef er hcf hef
  have hv1 : validCheck s2 lat lon = normalizeFlight s2 lat lon := by
    have e1 : validCheck s2 lat lon = validIndB s2 lat lon (truthy vi) := by
      unfold validCheck
      rw [hind, hvi]
      rfl
    have e2 : validSt s2 lat lon (dictGet s2.state "valid")
        = validStB s2 lat lon (truthy vs) := by
      rw [hst, hvs]
      rfl
    rw [e1, hvit]
    show validSt s2 lat lon (dictGet s2.state "valid") = _
    rw [e2, hvst]
    rfl
  obtain ⟨hex, hstatus, ind3, hfull⟩ := normalizeFlight_flight s2 lat lon
    (by rw [hind]; exact hp) (by rw [hind]; exact hr)
    nm (by rw [hind]; exact ht) q (by rw [hind]; exact hq)
  have htel : get_telemetry s (.ok (lat, lon)) (.ok ind) (.ok stD) cf cr ef er
      = (normalizeFlight s2 lat lon).1 := by
    unfold get_telemetry
    rw [heq, hv1]
    unfold telemWrap
    rw [hex]
  rw [htel, hfull, hst]
  rw [dictGet_dictSet_ne _ "lon" k _ hklon, dictGet_dictSet_ne _ "lat" k _ hklat]
  rw [dictGet_combine]
  rw [lastOcc_eq_dictGet stD k hnd, hk]

/-- Witness for C8 (amended): the scenario-1 poll, looked up at the
state snapshot's `IAS, km/h` key. -/
theorem C8_state_wins_except_map_witness :
    dictGet st1 "IAS, km/h" = some (Value.num 350) ∧
    (st1.map Prod.fst).Nodup ∧
    dictGet (get_telemetry TelemInterface.init (.ok (0, 0)) (.ok ind1) (.ok st1)
      false (.ok []) false (.ok [])).full_telemetry "IAS, km/h" = some (Value.num 350) :=
  ⟨by decide, by decide,
   C8_state_wins_except_map TelemInterface.init 0 0 ind1 st1 false (.ok []) false (.ok [])
     (fun h => nomatch h) (fun h => nomatch h)
     (Value.bool true) (by decide) (by decide)
     (Value.bool true) (by decide) (by decide)
     (fun v hv => by rw [show dictGet ind1 "aviahorizon_pitch" = some (Value.num 2) from by decide] at hv; injection hv with hv2; rw [← hv2]; decide)
     (fun v hv => by rw [show dictGet ind1 "aviahorizon_roll" = some (Value.num (-3)) from by decide] at hv; injection hv with hv2; rw [← hv2]; decide)
     "fw190" (by decide) 1000 (by decide)
     "IAS, km/h" (Value.num 350) (by decide) (by decide)
     (by decide) (by decide)⟩

/-- C9: on every reachable pre-call state, a failing event fetch leaves
both the accumulated events and the event watermark exactly as they were
before the call (the watermark line re-runs but rewrites the same value,
by the reachable-state invariant). -/
theorem C9_event_failure_idempotent (s : TelemState) (h : Reachable s) (e : PyExn) :
    (get_events s (.error e)).1.events = s.events ∧
    (get_events s (.error e)).1.last_event_ID = s.last_event_ID := by
  obtain ⟨-, hev⟩ := reachable_logInv s h
  cases hevs : s.events with
  | emptyDict =>
    constructor
    · show (eventsStep s.events s.last_event_ID (.error e)).1 = EventsAcc.emptyDict
      rw [hevs]
      rfl
    · show (eventsStep s.events s.last_event_ID (.error e)).2.1 = s.last_event_ID
      rw [hevs]
      rfl
  | lst l =>
    cases l with
    | nil =>
      constructor
      · show (eventsStep s.events s.last_event_ID (.error e)).1 = EventsAcc.lst []
        rw [hevs]
        rfl
      · show (eventsStep s.events s.last_event_ID (.error e)).2.1 = s.last_event_ID
        rw [hevs]
        rfl
    | cons x xs =>
      constructor
      · show (eventsStep s.events s.last_event_ID (.error e)).1 = EventsAcc.lst (x :: xs)
        rw [hevs]
        rfl
      · show (eventsStep s.events s.last_event_ID (.error e)).2.1 = s.last_event_ID
        rw [hevs]
        show lastId x xs = s.last_event_ID
        exact (hev x xs hevs).symm

/-- Witness for C9 on a fresh interface. -/
theorem C9_event_failure_idempotent_witness :
    Reachable TelemInterface.init ∧
    ((get_events TelemInterface.init (.error (.other "boom"))).1.events
        = TelemInterface.init.events ∧
     (get_events TelemInterface.init (.error (.other "boom"))).1.last_event_ID
        = TelemInterface.init.last_event_ID) :=
  ⟨Relation.ReflTransGen.refl,
   C9_event_failure_idempotent TelemInterface.init Relation.ReflTransGen.refl (.other "boom")⟩

/-- On a state whose events accumulator is the `{}` dict, `get_events`
leaves the state unchanged and lets the `KeyError` escape. -/
theorem get_events_emptyDict (t : TelemState) (r : Except PyExn (List LogEntry))
    (h : t.events = .emptyDict) :
    (get_events t r).1 = t ∧ (get_events t r).2 = some (.keyError "-1") := by
  have h1 : (eventsStep t.events t.last_event_ID r).1 = t.events := by
    rw [h]
    cases r <;> rfl
  have h2 : (eventsStep t.events t.last_event_ID r).2.1 = t.last_event_ID := by
    rw [h]
    cases r <;> rfl
  have h3 : (eventsStep t.events t.last_event_ID r).2.2 = some (PyExn.keyError "-1") := by
    rw [h]
    cases r <;> rfl
  constructor
  · show ({ t with events := (eventsStep t.events t.last_event_ID r).1, last_event_ID := (eventsStep t.events t.last_event_ID r).2.1 } : TelemState) = t
    rw [h1, h2]
  · exact h3

/-- C10: the claim is false as stated: a `get_telemetry(events=False)`
call whose transport fails before the events block completes without
resetting the accumulator, which stays the (list-typed) value from
`__init__`; a subsequent failing `get_events` then raises nothing. -/
theorem C10_events_list_counterexample :
    runRefused.status = Status.WT_NOT_RUNNING ∧
    runRefused.events = EventsAcc.lst [] ∧
    EventsAcc.lst [] ≠ EventsAcc.emptyDict ∧
    (get_events runRefused (.error (.other "boom"))).2 = none := by
  decide

/-- C10 (amended): after a `get_telemetry(events=False)` call whose map,
indicators and state fetches succeed (and whose comment fetch succeeds
when requested), the events accumulator is the `{}` dict, and a
subsequent direct `get_events` whose fetch fails leaves the state
unchanged while the uncaught `KeyError` from `self.events[-1]` escapes
to the caller. -/
theorem C10_events_dict_trap (s : TelemState) (lat lon : ℚ) (ind stD : Dict)
    (cf : Bool) (cr : Except PyExn (List LogEntry))
    (er : Except PyExn (List LogEntry))
    (hcf : cf = true → ∃ b, cr = .ok b) :
    (get_telemetry s (.ok (lat, lon)) (.ok ind) (.ok stD) cf cr false er).events
        = EventsAcc.emptyDict ∧
    ∀ e : PyExn,
      (get_events (get_telemetry s (.ok (lat, lon)) (.ok ind) (.ok stD) cf cr false er)
          (.error e)).1
        = get_telemetry s (.ok (lat, lon)) (.ok ind) (.ok stD) cf cr false er ∧
      (get_events (get_telemetry s (.ok (lat, lon)) (.ok ind) (.ok stD) cf cr false er)
          (.error e)).2
        = some (PyExn.keyError "-1") := by
  obtain ⟨s2, heq, _, _, _, _, _, hevd⟩ :=
    pollBody_ok { s with connected := false, full_telemetry := [], basic_telemetry := [] }
      lat lon ind stD cf cr false er hcf (fun h => nomatch h)
  have hevents : (get_telemetry s (.ok (lat, lon)) (.ok ind) (.ok stD) cf cr false er).events
      = EventsAcc.emptyDict := by
    unfold get_telemetry
    rw [heq]
    have h1 := (validCheck_logs s2 lat lon).2.2.1
    unfold telemWrap
    cases hvc : (validCheck s2 lat lon).2 with
    | none =>
      show (validCheck s2 lat lon).1.events = _
      rw [h1, hevd rfl]
    | some e2 =>
      show (validCheck s2 lat lon).1.events = _
      rw [h1, hevd rfl]
  exact ⟨hevents, fun e => get_events_emptyDict _ (.error e) hevents⟩

/-- Witness for C10 (amended) on a fresh interface with empty snapshots. -/
theorem C10_events_dict_trap_witness :
    (get_telemetry TelemInterface.init (.ok (0, 0)) (.ok []) (.ok [])
        false (.ok []) false (.ok [])).events = EventsAcc.emptyDict ∧
    (get_events (get_telemetry TelemInterface.init (.ok (0, 0)) (.ok []) (.ok [])
        false (.ok []) false (.ok [])) (.error (.other "boom"))).2
      = some (PyExn.keyError "-1") :=
  ⟨(C10_events_dict_trap TelemInterface.init 0 0 [] [] false (.ok []) (.ok [])
      (fun h => nomatch h)).1,
   ((C10_events_dict_trap TelemInterface.init 0 0 [] [] false (.ok []) (.ok [])
      (fun h => nomatch h)).2 (.other "boom")).2⟩
